import Mathlib

set_option maxHeartbeats 1000000

/-!
Verification development for the FPL expected-points scoring engine
(`src/analysis/fpl_expected_points_calculator.py`, class
`FPLExpectedPointsCalculator`).  The Python methods are embedded as pure
Lean functions over an explicit record type: integer counts become `ℕ`,
point totals become `ℤ`, the float-valued expected stats (`xg`, `xa`)
and the expected point totals become `ℚ`, and the nullable `bonus`
column becomes `Option ℤ` (with `none` standing for an absent or NaN
entry, which `pd.notna` maps to 0).
-/

/-- One player-match statistics row, as consumed by the calculator methods:
the `playermatchstats` columns used by the scoring code plus the merged
`position` and FPL `bonus` columns.  Counts are non-negative integers in
the data; `xg`/`xa` are the float expected-stat columns, modelled as `ℚ`. -/
structure PlayerStats where
  position : String
  minutes_played : ℕ
  goals : ℕ
  assists : ℕ
  team_goals_conceded : ℕ
  saves : ℕ
  penalties_missed : ℕ
  clearances : ℕ
  blocks : ℕ
  interceptions : ℕ
  tackles_won : ℕ
  recoveries : ℕ
  xg : ℚ
  xa : ℚ
  bonus : Option ℤ
deriving DecidableEq

namespace SCORING_RULES

/-- SCORING_RULES entry `appearance` (line 41). -/
def appearance : ℤ := 1

/-- SCORING_RULES entry `played_60_min` (line 42). -/
def played_60_min : ℤ := 2

/-- SCORING_RULES entry `goal_points` (lines 43-48): a position-keyed table,
read with default 4 via dict.get in the calculator. -/
def goal_points : List (String × ℤ) :=
  [("Goalkeeper", 6), ("Defender", 6), ("Midfielder", 5), ("Forward", 4)]

/-- SCORING_RULES entry `assist` (line 49). -/
def assist : ℤ := 3

/-- SCORING_RULES entry `clean_sheet` (lines 50-55): a position-keyed table,
read with default 0 via dict.get in the calculator. -/
def clean_sheet : List (String × ℤ) :=
  [("Goalkeeper", 4), ("Defender", 4), ("Midfielder", 1), ("Forward", 0)]

/-- SCORING_RULES entry `saves_per_point` (line 56). -/
def saves_per_point : ℕ := 3

/-- SCORING_RULES entry `penalty_save` (line 57); present in the table,
unused by the calculator methods. -/
def penalty_save : ℤ := 5

/-- SCORING_RULES entry `penalty_miss` (line 58). -/
def penalty_miss : ℤ := -2

/-- SCORING_RULES entry `own_goal` (line 59); unused by the calculator methods. -/
def own_goal : ℤ := -2

/-- SCORING_RULES entry `yellow_card` (line 60); unused by the calculator methods. -/
def yellow_card : ℤ := -1

/-- SCORING_RULES entry `red_card` (line 61); unused by the calculator methods. -/
def red_card : ℤ := -3

/-- SCORING_RULES entry `goals_conceded_penalty` (line 62). -/
def goals_conceded_penalty : ℤ := -1

/-- SCORING_RULES entry `defensive_contributions` (line 63). -/
def defensive_contributions : ℤ := 2

end SCORING_RULES

/-- Method `calculate_defensive_contributions` (lines 238-258): defenders are
awarded the fixed bonus iff clearances + blocks + interceptions + tackles_won
reaches 10; every other position (the `else` branch, which covers Midfielder,
Forward, Goalkeeper and unrecognized strings alike) is awarded it iff the sum
including recoveries reaches 12; otherwise 0. -/
def calculate_defensive_contributions (player_stats : PlayerStats) (position : String) : ℤ :=
  let clearances := player_stats.clearances
  let blocks := player_stats.blocks
  let interceptions := player_stats.interceptions
  let tackles := player_stats.tackles_won
  if position = "Defender" then
    let cbit_total := clearances + blocks + interceptions + tackles
    if cbit_total ≥ 10 then SCORING_RULES.defensive_contributions else 0
  else
    let recoveries := player_stats.recoveries
    let cbirt_total := clearances + blocks + interceptions + recoveries + tackles
    if cbirt_total ≥ 12 then SCORING_RULES.defensive_contributions else 0

/-- Step 1 of `calculate_base_fpl_points` (lines 133-135): appearance points
for at least one minute played. -/
def appearance_contribution (ps : PlayerStats) : ℤ :=
  if ps.minutes_played ≥ 1 then SCORING_RULES.appearance else 0

/-- Step 2 of `calculate_base_fpl_points` (lines 137-139): the 60-minute
playing-time bonus, added as played_60_min minus appearance on top of step 1. -/
def playing_time_contribution (ps : PlayerStats) : ℤ :=
  if ps.minutes_played ≥ 60 then SCORING_RULES.played_60_min - SCORING_RULES.appearance else 0

/-- Step 3 of `calculate_base_fpl_points` (lines 141-145): goals times the
position's goal value, looked up with default 4. -/
def goal_contribution (ps : PlayerStats) : ℤ :=
  if ps.goals > 0 then (ps.goals : ℤ) * ((SCORING_RULES.goal_points.lookup ps.position).getD 4)
  else 0

/-- Step 4 of `calculate_base_fpl_points` (lines 147-150): assists times the
assist value. -/
def assist_contribution (ps : PlayerStats) : ℤ :=
  if ps.assists > 0 then (ps.assists : ℤ) * SCORING_RULES.assist else 0

/-- Step 5 of `calculate_base_fpl_points` (lines 152-156): clean-sheet points
when the team conceded nothing and the player played at least 60 minutes,
looked up by position with default 0. -/
def clean_sheet_contribution (ps : PlayerStats) : ℤ :=
  if ps.team_goals_conceded = 0 ∧ ps.minutes_played ≥ 60 then
    (SCORING_RULES.clean_sheet.lookup ps.position).getD 0
  else 0

/-- Step 6 of `calculate_base_fpl_points` (lines 158-162): goalkeepers get
saves integer-divided by saves_per_point; note the code applies no
minutes-played condition to this step. -/
def saves_contribution (ps : PlayerStats) : ℤ :=
  if ps.position = "Goalkeeper" then ((ps.saves / SCORING_RULES.saves_per_point : ℕ) : ℤ)
  else 0

/-- Step 7 of `calculate_base_fpl_points` (lines 164-167): goalkeepers and
defenders with 60+ minutes lose one point per two goals conceded. -/
def goals_conceded_contribution (ps : PlayerStats) : ℤ :=
  if (ps.position = "Goalkeeper" ∨ ps.position = "Defender") ∧ ps.minutes_played ≥ 60 then
    -(((ps.team_goals_conceded / 2 : ℕ) : ℤ) * |SCORING_RULES.goals_conceded_penalty|)
  else 0

/-- Step 8 of `calculate_base_fpl_points` (lines 169-172): penalty misses
times the (negative) penalty-miss value. -/
def penalty_miss_contribution (ps : PlayerStats) : ℤ :=
  if ps.penalties_missed > 0 then (ps.penalties_missed : ℤ) * SCORING_RULES.penalty_miss else 0

/-- Method `calculate_base_fpl_points` (lines 128-178): the running
`points` accumulator applies steps 1-8 and then adds the defensive
contribution of lines 174-176; the sequential additions are embedded as
the sum of the step terms in the code's order. -/
def calculate_base_fpl_points (ps : PlayerStats) : ℤ :=
  appearance_contribution ps + playing_time_contribution ps + goal_contribution ps +
    assist_contribution ps + clean_sheet_contribution ps + saves_contribution ps +
    goals_conceded_contribution ps + penalty_miss_contribution ps +
    calculate_defensive_contributions ps ps.position

/-- Method `calculate_actual_fpl_points_with_bonus` (lines 180-184): base
points plus the bonus column, with an absent or NaN bonus (the `pd.notna`
guard) counted as 0. -/
def calculate_actual_fpl_points_with_bonus (ps : PlayerStats) : ℤ :=
  let base_points := calculate_base_fpl_points ps
  let bonus_points : ℤ :=
    match ps.bonus with
    | some b => b
    | none => 0
  base_points + bonus_points

/-- Step 1 of `calculate_expected_base_fpl_points` (lines 191-193), identical
to the actual variant's appearance step but accumulated into the
float-valued expected total. -/
def expected_appearance_contribution (ps : PlayerStats) : ℚ :=
  if ps.minutes_played ≥ 1 then (SCORING_RULES.appearance : ℚ) else 0

/-- Step 2 of `calculate_expected_base_fpl_points` (lines 195-197). -/
def expected_playing_time_contribution (ps : PlayerStats) : ℚ :=
  if ps.minutes_played ≥ 60 then
    ((SCORING_RULES.played_60_min : ℚ) - (SCORING_RULES.appearance : ℚ))
  else 0

/-- Step 3 of `calculate_expected_base_fpl_points` (lines 199-203): the xg
float times the position's goal value, looked up with default 4. -/
def xg_contribution (ps : PlayerStats) : ℚ :=
  if ps.xg > 0 then ps.xg * (((SCORING_RULES.goal_points.lookup ps.position).getD 4 : ℤ) : ℚ)
  else 0

/-- Step 4 of `calculate_expected_base_fpl_points` (lines 205-208): the xa
float times the assist value. -/
def xa_contribution (ps : PlayerStats) : ℚ :=
  if ps.xa > 0 then ps.xa * ((SCORING_RULES.assist : ℤ) : ℚ) else 0

/-- Step 5 of `calculate_expected_base_fpl_points` (lines 210-214), using the
realized team_goals_conceded exactly as the actual variant does. -/
def expected_clean_sheet_contribution (ps : PlayerStats) : ℚ :=
  if ps.team_goals_conceded = 0 ∧ ps.minutes_played ≥ 60 then
    (((SCORING_RULES.clean_sheet.lookup ps.position).getD 0 : ℤ) : ℚ)
  else 0

/-- Step 6 of `calculate_expected_base_fpl_points` (lines 216-220), using the
realized saves; again no minutes-played condition is applied. -/
def expected_saves_contribution (ps : PlayerStats) : ℚ :=
  if ps.position = "Goalkeeper" then ((ps.saves / SCORING_RULES.saves_per_point : ℕ) : ℚ)
  else 0

/-- Step 7 of `calculate_expected_base_fpl_points` (lines 222-225). -/
def expected_goals_conceded_contribution (ps : PlayerStats) : ℚ :=
  if (ps.position = "Goalkeeper" ∨ ps.position = "Defender") ∧ ps.minutes_played ≥ 60 then
    -(((ps.team_goals_conceded / 2 : ℕ) : ℚ) * |((SCORING_RULES.goals_conceded_penalty : ℤ) : ℚ)|)
  else 0

/-- Step 8 of `calculate_expected_base_fpl_points` (lines 227-230). -/
def expected_penalty_miss_contribution (ps : PlayerStats) : ℚ :=
  if ps.penalties_missed > 0 then (ps.penalties_missed : ℚ) * ((SCORING_RULES.penalty_miss : ℤ) : ℚ)
  else 0

/-- Method `calculate_expected_base_fpl_points` (lines 186-236): the same
step sequence as `calculate_base_fpl_points` with the xg and xa floats in
the goal and assist slots, accumulated in ℚ, plus the defensive
contribution of lines 232-234. -/
def calculate_expected_base_fpl_points (ps : PlayerStats) : ℚ :=
  expected_appearance_contribution ps + expected_playing_time_contribution ps +
    xg_contribution ps + xa_contribution ps + expected_clean_sheet_contribution ps +
    expected_saves_contribution ps + expected_goals_conceded_contribution ps +
    expected_penalty_miss_contribution ps +
    ((calculate_defensive_contributions ps ps.position : ℤ) : ℚ)

/-- Method `calculate_expected_bonus_points` (lines 260-282): an empty match
BPS collection yields 0; otherwise the collection is sorted descending, the
player's score is located by first-occurrence value lookup (Python
list.index, whose ValueError on a missing value is caught and mapped to 0),
and ranks 0, 1, 2 earn 3, 2, 1 points with 0 for any later rank. -/
def calculate_expected_bonus_points (player_bps : ℤ) (match_players_bps : List ℤ) : ℤ :=
  if match_players_bps = [] then 0
  else
    let sorted_bps := match_players_bps.insertionSort (fun a b => a ≥ b)
    match sorted_bps.indexOf? player_bps with
    | none => 0
    | some 0 => 3
    | some 1 => 2
    | some 2 => 1
    | some _ => 0

/-- Projection of one row of the `analyze_players` results frame (lines
365-391) onto the fields that the minimum-minutes filter and
`get_best_value_players` read. -/
structure AnalysisRow where
  minutes_played : ℕ
  actual_base_points : ℤ
  expected_base_points : ℚ
deriving DecidableEq

/-- Pandas column division as used on line 404-405: a finite quotient when
the denominator is nonzero; `none` marks the non-finite float (inf or NaN)
that pandas produces silently on division by zero. -/
def pandas_div (v : ℚ) (m : ℕ) : Option ℚ :=
  if m = 0 then none else some (v / (m : ℚ))

/-- The expected points-per-90 column built by `get_best_value_players`
(lines 400-407): the quotient times 90 is computed for every row of the
input frame; the method applies no minutes filter or zero guard of its own. -/
def expected_points_per_90_column (rows : List AnalysisRow) : List (Option ℚ) :=
  rows.map (fun r => (pandas_div r.expected_base_points r.minutes_played).map (fun q => q * 90))

/-- The minimum-minutes pre-filter of `analyze_players` (line 335):
df_filtered keeps the rows with minutes_played at or above min_minutes
(default 30 at the call sites) before any per-90 normalization runs. -/
def minutes_filter (min_minutes : ℕ) (rows : List AnalysisRow) : List AnalysisRow :=
  rows.filter (fun r => r.minutes_played ≥ min_minutes)

/-- Concrete record of the spec's scenario 1: a defender with a full match,
one goal, a clean sheet, and CBIT stats 5+2+2+2 = 11. -/
def defender_scenario : PlayerStats :=
  { position := "Defender", minutes_played := 90, goals := 1, assists := 0,
    team_goals_conceded := 0, saves := 0, penalties_missed := 0, clearances := 5,
    blocks := 2, interceptions := 2, tackles_won := 2, recoveries := 0,
    xg := 0, xa := 0, bonus := none }

/-- A goalkeeper credited with saves while recorded with zero minutes. -/
def gk_zero_minutes : PlayerStats :=
  { position := "Goalkeeper", minutes_played := 0, goals := 0, assists := 0,
    team_goals_conceded := 0, saves := 3, penalties_missed := 0, clearances := 0,
    blocks := 0, interceptions := 0, tackles_won := 0, recoveries := 0,
    xg := 0, xa := 0, bonus := none }

/-- C5: on the spec's concrete scenario-1 defender record the defensive
contribution evaluates to 2 and the actual base points evaluate to 14. -/
theorem c5_defender_scenario :
    calculate_defensive_contributions defender_scenario defender_scenario.position = 2 ∧
    calculate_base_fpl_points defender_scenario = 14 := by
  constructor <;> decide

/-- C3: the defensive-contribution rule awards exactly 2 to defenders iff
clearances + blocks + interceptions + tackles_won reaches 10, exactly 2 to
every non-defender position iff that sum plus recoveries reaches 12, and in
every case returns exactly 0 or exactly 2, never a partial value. -/
theorem c3_defensive_contributions (ps : PlayerStats) (position : String) :
    (position = "Defender" →
      (calculate_defensive_contributions ps position = 2 ↔
        ps.clearances + ps.blocks + ps.interceptions + ps.tackles_won ≥ 10)) ∧
    (position ≠ "Defender" →
      (calculate_defensive_contributions ps position = 2 ↔
        ps.clearances + ps.blocks + ps.interceptions + ps.recoveries + ps.tackles_won ≥ 12)) ∧
    (calculate_defensive_contributions ps position = 0 ∨
      calculate_defensive_contributions ps position = 2) := by
  unfold calculate_defensive_contributions
  simp only [SCORING_RULES.defensive_contributions]
  refine ⟨fun h => ?_, fun h => ?_, ?_⟩
  · simp only [if_pos h]
    split <;> simp_all
  · simp only [if_neg h]
    split <;> simp_all
  · split <;> split <;> simp

/-- Witness for C3 at the scenario-1 defender record: its CBIT total 11
meets the defender threshold, so the rule awards 2. -/
theorem c3_witness :
    calculate_defensive_contributions defender_scenario defender_scenario.position = 2 :=
  (c3_defensive_contributions defender_scenario defender_scenario.position).1
    (by decide) |>.mpr (by decide)

/-- C1 counterexample: on a goalkeeper row with zero minutes and three saves
the saves step still awards a point, because lines 158-162 apply no
minutes-played condition, so the claimed conjunction of four zero
contributions fails. -/
theorem c1_counterexample :
    gk_zero_minutes.minutes_played < 1 ∧
    ¬(appearance_contribution gk_zero_minutes = 0 ∧
      playing_time_contribution gk_zero_minutes = 0 ∧
      clean_sheet_contribution gk_zero_minutes = 0 ∧
      saves_contribution gk_zero_minutes = 0) ∧
    saves_contribution gk_zero_minutes = 1 := by
  refine ⟨by decide, by decide, by decide⟩

/-- C1 amended: for records with under one minute played the appearance,
playing-time and clean-sheet contributions are 0 in both the actual and the
expected variant, but the saves contribution is not minutes-gated: a
goalkeeper row still receives saves divided by saves_per_point. -/
theorem c1_minutes_gating (ps : PlayerStats) (h : ps.minutes_played < 1) :
    appearance_contribution ps = 0 ∧ playing_time_contribution ps = 0 ∧
    clean_sheet_contribution ps = 0 ∧
    expected_appearance_contribution ps = 0 ∧ expected_playing_time_contribution ps = 0 ∧
    expected_clean_sheet_contribution ps = 0 ∧
    (ps.position = "Goalkeeper" →
      saves_contribution ps = ((ps.saves / 3 : ℕ) : ℤ) ∧
      expected_saves_contribution ps = ((ps.saves / 3 : ℕ) : ℚ)) := by
  have h1 : ¬(ps.minutes_played ≥ 1) := by omega
  have h60 : ¬(ps.minutes_played ≥ 60) := by omega
  refine ⟨?_, ?_, ?_, ?_, ?_, ?_, fun hq => ⟨?_, ?_⟩⟩
  all_goals
    simp [appearance_contribution, playing_time_contribution, clean_sheet_contribution,
      expected_appearance_contribution, expected_playing_time_contribution,
      expected_clean_sheet_contribution, saves_contribution, expected_saves_contribution,
      SCORING_RULES.saves_per_point, h1, h60]
  all_goals simp [hq]

/-- Witness for the amended C1 at the zero-minutes goalkeeper record. -/
theorem c1_witness :
    appearance_contribution gk_zero_minutes = 0 ∧
    playing_time_contribution gk_zero_minutes = 0 ∧
    clean_sheet_contribution gk_zero_minutes = 0 ∧
    expected_appearance_contribution gk_zero_minutes = 0 ∧
    expected_playing_time_contribution gk_zero_minutes = 0 ∧
    expected_clean_sheet_contribution gk_zero_minutes = 0 ∧
    (gk_zero_minutes.position = "Goalkeeper" →
      saves_contribution gk_zero_minutes = ((gk_zero_minutes.saves / 3 : ℕ) : ℤ) ∧
      expected_saves_contribution gk_zero_minutes = ((gk_zero_minutes.saves / 3 : ℕ) : ℚ)) :=
  c1_minutes_gating gk_zero_minutes (by decide)

/-- A midfielder substitute record with under an hour played. -/
def sub_hour_midfielder : PlayerStats :=
  { position := "Midfielder", minutes_played := 30, goals := 0, assists := 1,
    team_goals_conceded := 1, saves := 0, penalties_missed := 0, clearances := 1,
    blocks := 0, interceptions := 1, tackles_won := 1, recoveries := 2,
    xg := 0, xa := 0, bonus := some 2 }

/-- C6: between 1 and 59 minutes the appearance step contributes exactly the
appearance value and the playing-time bonus is absent; from 60 minutes the
two steps together contribute exactly the played_60_min total, with no
double counting. -/
theorem c6_appearance_playing_time (ps : PlayerStats) :
    (1 ≤ ps.minutes_played → ps.minutes_played < 60 →
      appearance_contribution ps = SCORING_RULES.appearance ∧
      playing_time_contribution ps = 0) ∧
    (60 ≤ ps.minutes_played →
      appearance_contribution ps + playing_time_contribution ps =
        SCORING_RULES.played_60_min) := by
  constructor
  · intro h1 h2
    have h60 : ¬(ps.minutes_played ≥ 60) := by omega
    constructor
    · simp [appearance_contribution, h1]
    · simp [playing_time_contribution, h60]
  · intro h
    have h1 : ps.minutes_played ≥ 1 := by omega
    simp [appearance_contribution, playing_time_contribution, h, h1]

/-- Witness for C6 at a 30-minute substitute and at a 90-minute starter. -/
theorem c6_witness :
    (appearance_contribution sub_hour_midfielder = SCORING_RULES.appearance ∧
      playing_time_contribution sub_hour_midfielder = 0) ∧
    appearance_contribution defender_scenario + playing_time_contribution defender_scenario =
      SCORING_RULES.played_60_min :=
  ⟨(c6_appearance_playing_time sub_hour_midfielder).1 (by decide) (by decide),
    (c6_appearance_playing_time defender_scenario).2 (by decide)⟩

/-- An unrecognized position is looked up in the goal-points table and falls
back to the dict.get default 4. -/
lemma goal_points_lookup_default {pos : String}
    (h : pos ∉ ["Goalkeeper", "Defender", "Midfielder", "Forward"]) :
    (SCORING_RULES.goal_points.lookup pos).getD 4 = 4 := by
  simp only [List.mem_cons, List.not_mem_nil, or_false, not_or] at h
  obtain ⟨h1, h2, h3, h4⟩ := h
  simp [SCORING_RULES.goal_points, List.lookup, beq_eq_false_iff_ne.mpr h1,
    beq_eq_false_iff_ne.mpr h2, beq_eq_false_iff_ne.mpr h3, beq_eq_false_iff_ne.mpr h4]

/-- An unrecognized position is looked up in the clean-sheet table and falls
back to the dict.get default 0. -/
lemma clean_sheet_lookup_default {pos : String}
    (h : pos ∉ ["Goalkeeper", "Defender", "Midfielder", "Forward"]) :
    (SCORING_RULES.clean_sheet.lookup pos).getD 0 = 0 := by
  simp only [List.mem_cons, List.not_mem_nil, or_false, not_or] at h
  obtain ⟨h1, h2, h3, h4⟩ := h
  simp [SCORING_RULES.clean_sheet, List.lookup, beq_eq_false_iff_ne.mpr h1,
    beq_eq_false_iff_ne.mpr h2, beq_eq_false_iff_ne.mpr h3, beq_eq_false_iff_ne.mpr h4]

/-- C8: for a position outside the four recognized values the calculators do
not fail; the goal step uses the Forward-tier default value 4 and the
clean-sheet step contributes the Forward-tier value 0. -/
theorem c8_unrecognized_position (ps : PlayerStats)
    (h : ps.position ∉ ["Goalkeeper", "Defender", "Midfielder", "Forward"]) :
    (SCORING_RULES.goal_points.lookup ps.position).getD 4 = 4 ∧
    (SCORING_RULES.clean_sheet.lookup ps.position).getD 0 = 0 ∧
    goal_contribution ps = (if ps.goals > 0 then (ps.goals : ℤ) * 4 else 0) ∧
    clean_sheet_contribution ps = 0 := by
  refine ⟨goal_points_lookup_default h, clean_sheet_lookup_default h, ?_, ?_⟩
  · unfold goal_contribution
    rw [goal_points_lookup_default h]
  · unfold clean_sheet_contribution
    split
    · exact clean_sheet_lookup_default h
    · rfl

/-- A record with a position string outside the recognized enumeration. -/
def winger_record : PlayerStats :=
  { position := "Winger", minutes_played := 90, goals := 2, assists := 0,
    team_goals_conceded := 0, saves := 0, penalties_missed := 0, clearances := 0,
    blocks := 0, interceptions := 0, tackles_won := 0, recoveries := 0,
    xg := 0, xa := 0, bonus := none }

/-- Witness for C8 at the unrecognized-position record. -/
theorem c8_witness :
    (SCORING_RULES.goal_points.lookup winger_record.position).getD 4 = 4 ∧
    (SCORING_RULES.clean_sheet.lookup winger_record.position).getD 0 = 0 ∧
    goal_contribution winger_record =
      (if winger_record.goals > 0 then (winger_record.goals : ℤ) * 4 else 0) ∧
    clean_sheet_contribution winger_record = 0 :=
  c8_unrecognized_position winger_record (by decide)

/-- C7: the with-bonus total equals the base points plus the bonus column,
with an absent or NaN bonus (modelled by none) counting as 0. -/
theorem c7_total_with_bonus (ps : PlayerStats) :
    (ps.bonus = none →
      calculate_actual_fpl_points_with_bonus ps = calculate_base_fpl_points ps) ∧
    (∀ b : ℤ, ps.bonus = some b →
      calculate_actual_fpl_points_with_bonus ps = calculate_base_fpl_points ps + b) := by
  constructor
  · intro h
    simp [calculate_actual_fpl_points_with_bonus, h]
  · intro b h
    simp [calculate_actual_fpl_points_with_bonus, h]

/-- Witness for C7 at a record with no bonus entry and at one with bonus 2. -/
theorem c7_witness :
    calculate_actual_fpl_points_with_bonus defender_scenario =
      calculate_base_fpl_points defender_scenario ∧
    calculate_actual_fpl_points_with_bonus sub_hour_midfielder =
      calculate_base_fpl_points sub_hour_midfielder + 2 :=
  ⟨(c7_total_with_bonus defender_scenario).1 rfl,
    (c7_total_with_bonus sub_hour_midfielder).2 2 rfl⟩

/-- A results row recorded with zero minutes played. -/
def zero_minutes_row : AnalysisRow :=
  { minutes_played := 0, actual_base_points := 0, expected_base_points := 6 }

/-- C2 counterexample: get_best_value_players does not reject or skip a
zero-minutes row; the per-90 column keeps an entry for it whose value is the
non-finite marker produced by the division by zero. -/
theorem c2_counterexample :
    zero_minutes_row.minutes_played = 0 ∧
    expected_points_per_90_column [zero_minutes_row] = [none] := by
  exact ⟨rfl, rfl⟩

/-- C2 amended: the per-90 normalization itself applies no guard - it keeps
one entry per input row - but after the pipeline's minimum-minutes
pre-filter with any positive threshold every computed points-per-90 value
is finite. -/
theorem c2_per90_guarded (min_minutes : ℕ) (h : 1 ≤ min_minutes) (rows : List AnalysisRow) :
    (expected_points_per_90_column rows).length = rows.length ∧
    ∀ q ∈ expected_points_per_90_column (minutes_filter min_minutes rows), q ≠ none := by
  constructor
  · simp [expected_points_per_90_column]
  · intro q hq
    simp only [expected_points_per_90_column, List.mem_map] at hq
    obtain ⟨r, hr, rfl⟩ := hq
    simp only [minutes_filter, List.mem_filter, decide_eq_true_eq] at hr
    have hm : ¬(r.minutes_played = 0) := by omega
    simp [pandas_div, hm]

/-- Witness for the amended C2 with the default threshold 30 on a batch
holding only the zero-minutes row. -/
theorem c2_witness :
    (expected_points_per_90_column [zero_minutes_row]).length = [zero_minutes_row].length ∧
    ∀ q ∈ expected_points_per_90_column (minutes_filter 30 [zero_minutes_row]), q ≠ none :=
  c2_per90_guarded 30 (by decide) [zero_minutes_row]

/-- Every goal-points table value, and the dict.get default 4, is non-negative. -/
lemma goal_points_value_nonneg (pos : String) :
    0 ≤ (SCORING_RULES.goal_points.lookup pos).getD 4 := by
  simp only [SCORING_RULES.goal_points, List.lookup]
  cases h1 : pos == "Goalkeeper" <;> cases h2 : pos == "Defender" <;>
    cases h3 : pos == "Midfielder" <;> cases h4 : pos == "Forward" <;> simp

/-- A guarded count-times-value term is monotone in the count when the value
is non-negative. -/
lemma guarded_count_mul_mono {g g' : ℕ} {c : ℤ} (hc : 0 ≤ c) (h : g ≤ g') :
    (if g > 0 then (g : ℤ) * c else 0) ≤ (if g' > 0 then (g' : ℤ) * c else 0) := by
  by_cases h1 : g > 0
  · have h2 : g' > 0 := lt_of_lt_of_le h1 h
    rw [if_pos h1, if_pos h2]
    exact mul_le_mul_of_nonneg_right (by exact_mod_cast h) hc
  · rw [if_neg h1]
    by_cases h2 : g' > 0
    · rw [if_pos h2]
      exact mul_nonneg (by positivity) hc
    · rw [if_neg h2]

/-- A guarded rational-times-value term is monotone in the rational when the
value is non-negative. -/
lemma guarded_rat_mul_mono {x x' c : ℚ} (hc : 0 ≤ c) (h : x ≤ x') :
    (if x > 0 then x * c else 0) ≤ (if x' > 0 then x' * c else 0) := by
  by_cases h1 : x > 0
  · have h2 : x' > 0 := lt_of_lt_of_le h1 h
    rw [if_pos h1, if_pos h2]
    exact mul_le_mul_of_nonneg_right h hc
  · rw [if_neg h1]
    by_cases h2 : x' > 0
    · rw [if_pos h2]
      exact mul_nonneg h2.le hc
    · rw [if_neg h2]

/-- C9: holding every other field fixed, the actual base points are monotone
non-decreasing in goals and in assists, and the expected base points are
monotone non-decreasing in xg and in xa. -/
theorem c9_monotone (ps : PlayerStats) (g g' a a' : ℕ) (x x' y y' : ℚ)
    (hg : g ≤ g') (ha : a ≤ a') (hx : x ≤ x') (hy : y ≤ y') :
    calculate_base_fpl_points { ps with goals := g } ≤
      calculate_base_fpl_points { ps with goals := g' } ∧
    calculate_base_fpl_points { ps with assists := a } ≤
      calculate_base_fpl_points { ps with assists := a' } ∧
    calculate_expected_base_fpl_points { ps with xg := x } ≤
      calculate_expected_base_fpl_points { ps with xg := x' } ∧
    calculate_expected_base_fpl_points { ps with xa := y } ≤
      calculate_expected_base_fpl_points { ps with xa := y' } := by
  refine ⟨?_, ?_, ?_, ?_⟩
  · show appearance_contribution ps + playing_time_contribution ps +
      (if g > 0 then (g : ℤ) * ((SCORING_RULES.goal_points.lookup ps.position).getD 4) else 0) +
      assist_contribution ps + clean_sheet_contribution ps + saves_contribution ps +
      goals_conceded_contribution ps + penalty_miss_contribution ps +
      calculate_defensive_contributions ps ps.position ≤
      appearance_contribution ps + playing_time_contribution ps +
      (if g' > 0 then (g' : ℤ) * ((SCORING_RULES.goal_points.lookup ps.position).getD 4) else 0) +
      assist_contribution ps + clean_sheet_contribution ps + saves_contribution ps +
      goals_conceded_contribution ps + penalty_miss_contribution ps +
      calculate_defensive_contributions ps ps.position
    gcongr
    exact guarded_count_mul_mono (goal_points_value_nonneg ps.position) hg
  · show appearance_contribution ps + playing_time_contribution ps + goal_contribution ps +
      (if a > 0 then (a : ℤ) * SCORING_RULES.assist else 0) +
      clean_sheet_contribution ps + saves_contribution ps +
      goals_conceded_contribution ps + penalty_miss_contribution ps +
      calculate_defensive_contributions ps ps.position ≤
      appearance_contribution ps + playing_time_contribution ps + goal_contribution ps +
      (if a' > 0 then (a' : ℤ) * SCORING_RULES.assist else 0) +
      clean_sheet_contribution ps + saves_contribution ps +
      goals_conceded_contribution ps + penalty_miss_contribution ps +
      calculate_defensive_contributions ps ps.position
    gcongr
    exact guarded_count_mul_mono (by norm_num [SCORING_RULES.assist]) ha
  · show expected_appearance_contribution ps + expected_playing_time_contribution ps +
      (if x > 0 then x * (((SCORING_RULES.goal_points.lookup ps.position).getD 4 : ℤ) : ℚ) else 0) +
      xa_contribution ps + expected_clean_sheet_contribution ps +
      expected_saves_contribution ps + expected_goals_conceded_contribution ps +
      expected_penalty_miss_contribution ps +
      ((calculate_defensive_contributions ps ps.position : ℤ) : ℚ) ≤
      expected_appearance_contribution ps + expected_playing_time_contribution ps +
      (if x' > 0 then x' * (((SCORING_RULES.goal_points.lookup ps.position).getD 4 : ℤ) : ℚ) else 0) +
      xa_contribution ps + expected_clean_sheet_contribution ps +
      expected_saves_contribution ps + expected_goals_conceded_contribution ps +
      expected_penalty_miss_contribution ps +
      ((calculate_defensive_contributions ps ps.position : ℤ) : ℚ)
    gcongr
    exact guarded_rat_mul_mono (by exact_mod_cast goal_points_value_nonneg ps.position) hx
  · show expected_appearance_contribution ps + expected_playing_time_contribution ps +
      xg_contribution ps +
      (if y > 0 then y * ((SCORING_RULES.assist : ℤ) : ℚ) else 0) +
      expected_clean_sheet_contribution ps +
      expected_saves_contribution ps + expected_goals_conceded_contribution ps +
      expected_penalty_miss_contribution ps +
      ((calculate_defensive_contributions ps ps.position : ℤ) : ℚ) ≤
      expected_appearance_contribution ps + expected_playing_time_contribution ps +
      xg_contribution ps +
      (if y' > 0 then y' * ((SCORING_RULES.assist : ℤ) : ℚ) else 0) +
      expected_clean_sheet_contribution ps +
      expected_saves_contribution ps + expected_goals_conceded_contribution ps +
      expected_penalty_miss_contribution ps +
      ((calculate_defensive_contributions ps ps.position : ℤ) : ℚ)
    gcongr
    exact guarded_rat_mul_mono (by norm_num [SCORING_RULES.assist]) hy

/-- Witness for C9 at the substitute record with concrete count and
expected-stat increases. -/
theorem c9_witness :
    calculate_base_fpl_points { sub_hour_midfielder with goals := 0 } ≤
      calculate_base_fpl_points { sub_hour_midfielder with goals := 2 } ∧
    calculate_base_fpl_points { sub_hour_midfielder with assists := 0 } ≤
      calculate_base_fpl_points { sub_hour_midfielder with assists := 1 } ∧
    calculate_expected_base_fpl_points { sub_hour_midfielder with xg := 0 } ≤
      calculate_expected_base_fpl_points { sub_hour_midfielder with xg := 1 } ∧
    calculate_expected_base_fpl_points { sub_hour_midfielder with xa := 0 } ≤
      calculate_expected_base_fpl_points { sub_hour_midfielder with xa := 1 } :=
  c9_monotone sub_hour_midfielder 0 2 0 1 0 1 0 1 (by decide) (by decide)
    (by norm_num) (by norm_num)

/-- The expected appearance step equals the cast of the actual one. -/
lemma expected_appearance_eq_cast (ps : PlayerStats) :
    expected_appearance_contribution ps = ((appearance_contribution ps : ℤ) : ℚ) := by
  unfold expected_appearance_contribution appearance_contribution
  split <;> simp

/-- The expected playing-time step equals the cast of the actual one. -/
lemma expected_playing_time_eq_cast (ps : PlayerStats) :
    expected_playing_time_contribution ps = ((playing_time_contribution ps : ℤ) : ℚ) := by
  unfold expected_playing_time_contribution playing_time_contribution
  split <;> simp

/-- When xg equals the goals count as a number, the xg step equals the cast
of the actual goal step. -/
lemma xg_contribution_eq_cast (ps : PlayerStats) (h : ps.xg = (ps.goals : ℚ)) :
    xg_contribution ps = ((goal_contribution ps : ℤ) : ℚ) := by
  unfold xg_contribution goal_contribution
  rw [h]
  by_cases hg : ps.goals > 0
  · rw [if_pos (by exact_mod_cast hg), if_pos hg]
    push_cast
    ring
  · rw [if_neg (by exact_mod_cast hg), if_neg hg]
    simp

/-- When xa equals the assists count as a number, the xa step equals the
cast of the actual assist step. -/
lemma xa_contribution_eq_cast (ps : PlayerStats) (h : ps.xa = (ps.assists : ℚ)) :
    xa_contribution ps = ((assist_contribution ps : ℤ) : ℚ) := by
  unfold xa_contribution assist_contribution
  rw [h]
  by_cases ha : ps.assists > 0
  · rw [if_pos (by exact_mod_cast ha), if_pos ha]
    push_cast
    ring
  · rw [if_neg (by exact_mod_cast ha), if_neg ha]
    simp

/-- The expected clean-sheet step equals the cast of the actual one. -/
lemma expected_clean_sheet_eq_cast (ps : PlayerStats) :
    expected_clean_sheet_contribution ps = ((clean_sheet_contribution ps : ℤ) : ℚ) := by
  unfold expected_clean_sheet_contribution clean_sheet_contribution
  split <;> simp

/-- The expected saves step equals the cast of the actual one. -/
lemma expected_saves_eq_cast (ps : PlayerStats) :
    expected_saves_contribution ps = ((saves_contribution ps : ℤ) : ℚ) := by
  unfold expected_saves_contribution saves_contribution
  split
  · exact (Int.cast_natCast _).symm
  · simp

/-- The expected goals-conceded step equals the cast of the actual one. -/
lemma expected_goals_conceded_eq_cast (ps : PlayerStats) :
    expected_goals_conceded_contribution ps = ((goals_conceded_contribution ps : ℤ) : ℚ) := by
  unfold expected_goals_conceded_contribution goals_conceded_contribution
  split
  · simp only [Int.cast_neg, Int.cast_mul, Int.cast_natCast, Int.cast_abs]
  · simp

/-- The expected penalty-miss step equals the cast of the actual one. -/
lemma expected_penalty_miss_eq_cast (ps : PlayerStats) :
    expected_penalty_miss_contribution ps = ((penalty_miss_contribution ps : ℤ) : ℚ) := by
  unfold expected_penalty_miss_contribution penalty_miss_contribution
  split <;> push_cast <;> ring

/-- C10: whenever the record's xg equals its goals and its xa equals its
assists as numbers, the expected calculator returns exactly the actual base
points: the two entry points share one formula, differing only in which
fields fill the goal-like and assist-like slots. -/
theorem c10_expected_matches_actual (ps : PlayerStats)
    (h1 : ps.xg = (ps.goals : ℚ)) (h2 : ps.xa = (ps.assists : ℚ)) :
    calculate_expected_base_fpl_points ps = ((calculate_base_fpl_points ps : ℤ) : ℚ) := by
  unfold calculate_expected_base_fpl_points calculate_base_fpl_points
  rw [expected_appearance_eq_cast, expected_playing_time_eq_cast,
    xg_contribution_eq_cast ps h1, xa_contribution_eq_cast ps h2,
    expected_clean_sheet_eq_cast, expected_saves_eq_cast,
    expected_goals_conceded_eq_cast, expected_penalty_miss_eq_cast]
  push_cast
  ring

/-- A forward record whose expected stats coincide numerically with its
realized goals and assists. -/
def forward_exact_record : PlayerStats :=
  { position := "Forward", minutes_played := 75, goals := 2, assists := 1,
    team_goals_conceded := 1, saves := 0, penalties_missed := 0, clearances := 0,
    blocks := 0, interceptions := 0, tackles_won := 1, recoveries := 2,
    xg := 2, xa := 1, bonus := some 3 }

/-- Witness for C10 at the coinciding forward record. -/
theorem c10_witness :
    calculate_expected_base_fpl_points forward_exact_record =
      ((calculate_base_fpl_points forward_exact_record : ℤ) : ℚ) :=
  c10_expected_matches_actual forward_exact_record (by norm_num [forward_exact_record])
    (by norm_num [forward_exact_record])

/-- In a descending-sorted list, the first occurrence by value of a present
element sits after exactly the elements strictly greater than it. -/
lemma indexOf?_sorted_desc (l : List ℤ) (hl : l.Sorted (fun a b => a ≥ b)) (b : ℤ)
    (hb : b ∈ l) : l.indexOf? b = some (l.countP (fun x => decide (b < x))) := by
  induction l with
  | nil => cases hb
  | cons x xs ih =>
    rw [List.sorted_cons] at hl
    obtain ⟨hx, hxs⟩ := hl
    by_cases hxb : x = b
    · subst hxb
      have h0 : xs.countP (fun y => decide (x < y)) = 0 := by
        rw [List.countP_eq_zero]
        intro y hy
        simp only [decide_eq_true_eq, not_lt]
        exact hx y hy
      rw [List.indexOf?_cons, if_pos (by simp), List.countP_cons]
      simp [h0]
    · have hbxs : b ∈ xs := by
        rcases List.mem_cons.mp hb with h | h
        · exact absurd h.symm hxb
        · exact h
      have hbx : b < x := lt_of_le_of_ne (hx b hbxs) (fun e => hxb e.symm)
      rw [List.indexOf?_cons, if_neg (by simp [hxb]), ih hxs hbxs, List.countP_cons]
      simp [hbx]

/-- C4: the bonus ranker returns 0 on an empty match collection and on a
score missing from it; for a present score it awards 3, 2, 1 or 0 according
to the rank of the first occurrence of that value in the descending sort,
which is the number of strictly greater BPS values in the match; and on the
tied collection 50, 40, 40, 10 a player with score 40 earns 2. -/
theorem c4_bonus_ranking (player_bps : ℤ) (match_players_bps : List ℤ) :
    (match_players_bps = [] →
      calculate_expected_bonus_points player_bps match_players_bps = 0) ∧
    (player_bps ∉ match_players_bps →
      calculate_expected_bonus_points player_bps match_players_bps = 0) ∧
    (player_bps ∈ match_players_bps →
      calculate_expected_bonus_points player_bps match_players_bps =
        (match match_players_bps.countP (fun x => decide (player_bps < x)) with
          | 0 => 3
          | 1 => 2
          | 2 => 1
          | _ => 0)) ∧
    calculate_expected_bonus_points 40 [50, 40, 40, 10] = 2 := by
  refine ⟨?_, ?_, ?_, by decide⟩
  · intro h
    simp [calculate_expected_bonus_points, h]
  · intro h
    by_cases he : match_players_bps = []
    · simp [calculate_expected_bonus_points, he]
    · have hnone :
          (match_players_bps.insertionSort (fun a b => a ≥ b)).indexOf? player_bps = none := by
        rw [List.indexOf?_eq_none_iff]
        intro x hx
        have hxm : x ∈ match_players_bps :=
          (List.perm_insertionSort (fun a b => a ≥ b) match_players_bps).mem_iff.mp hx
        simp only [beq_iff_eq]
        exact fun e => h (e ▸ hxm)
      simp [calculate_expected_bonus_points, he, hnone]
  · intro h
    have hne : ¬(match_players_bps = []) := by
      rintro rfl
      cases h
    have hsorted :
        (match_players_bps.insertionSort (fun a b => a ≥ b)).Sorted (fun a b => a ≥ b) :=
      List.sorted_insertionSort (fun a b => a ≥ b) match_players_bps
    have hmem : player_bps ∈ match_players_bps.insertionSort (fun a b => a ≥ b) :=
      (List.perm_insertionSort (fun a b => a ≥ b) match_players_bps).mem_iff.mpr h
    have hcount :
        (match_players_bps.insertionSort (fun a b => a ≥ b)).countP
            (fun x => decide (player_bps < x)) =
          match_players_bps.countP (fun x => decide (player_bps < x)) :=
      (List.perm_insertionSort (fun a b => a ≥ b) match_players_bps).countP_eq _
    simp only [calculate_expected_bonus_points, if_neg hne,
      indexOf?_sorted_desc _ hsorted _ hmem, hcount]
    generalize match_players_bps.countP (fun x => decide (player_bps < x)) = k
    rcases k with _ | _ | _ | k <;> rfl

/-- Witness for C4 on an empty collection, a missing score, and the tied
example collection. -/
theorem c4_witness :
    calculate_expected_bonus_points 7 ([] : List ℤ) = 0 ∧
    calculate_expected_bonus_points 99 [50, 40, 40, 10] = 0 ∧
    calculate_expected_bonus_points 40 [50, 40, 40, 10] = 2 :=
  ⟨(c4_bonus_ranking 7 []).1 rfl,
    (c4_bonus_ranking 99 [50, 40, 40, 10]).2.1 (by decide),
    (c4_bonus_ranking 40 [50, 40, 40, 10]).2.2.2⟩
